import Mathlib

/-!
Shallow embedding of the multi-strategy e-commerce extraction engine of this
repository (src/scraper.py, src/scraper3.py, src/scraper8.py and the Scrapy
spider).  Pure Python helpers become Lean functions; the Playwright /
BeautifulSoup renderer layer is the external Page Renderer Port and is
represented by explicit data (resolved elements, attribute lists) and by
function parameters (urljoin, image download) where the code calls external
libraries.  Machine-level concerns do not arise: all the modelled code is
string and list manipulation.
-/

namespace Scraper

/-! Basic text utilities shared by several modelled functions. -/

/-- Membership of `pat` as a contiguous run inside `hay`, scanning left to
right; models the Python `pat in hay` substring test. -/
def containsAux (pat : List Char) : List Char → Bool
  | [] => pat.isEmpty
  | l@(_ :: t) => pat.isPrefixOf l || containsAux pat t

/-- Python `pat in hay` for strings. -/
def strContains (hay pat : String) : Bool :=
  containsAux pat.toList hay.toList

/-- Python `str.strip()` on a character list: drop leading and trailing
whitespace. -/
def pyStrip (l : List Char) : List Char :=
  ((l.dropWhile Char.isWhitespace).reverse.dropWhile Char.isWhitespace).reverse

/-- Python `str.strip()` on strings. -/
def pyStripStr (s : String) : String :=
  String.mk (pyStrip s.toList)

/-- Python `re.sub(r'\s+', ' ', s)`: every maximal whitespace run becomes a
single space. -/
def collapseWs : List Char → List Char
  | [] => []
  | [c] => if c.isWhitespace then [' '] else [c]
  | c :: d :: rest =>
    if c.isWhitespace then
      if d.isWhitespace then collapseWs (d :: rest)
      else ' ' :: collapseWs (d :: rest)
    else c :: collapseWs (d :: rest)

/-- Embeds `clean_text` of src/scraper.py (lines 162-168): falsy text maps to
"N/A", otherwise whitespace runs collapse to single spaces and the ends are
stripped. -/
def clean_text (s : String) : String :=
  if s = "" then "N/A"
  else String.mk (pyStrip (collapseWs s.toList))

/-- The fixed color vocabulary of `extract_colors` in src/scraper.py. -/
def common_colors : List String :=
  ["black", "white", "red", "blue", "green", "yellow", "purple", "pink",
   "orange", "brown", "grey", "gray", "navy", "beige", "gold", "silver",
   "tan", "olive", "teal", "maroon", "ivory", "khaki"]

/-- Embeds `extract_colors` of src/scraper.py: substring match of each
vocabulary color against the lowercased text, in vocabulary order. -/
def extract_colors (text : String) : List String :=
  if text = "" ∨ text = "N/A" then []
  else common_colors.filter (fun c => strContains text.toLower c)

/-! Currency and amount extraction (src/scraper.py lines 147-160).  The two
regular expressions `[$€£¥₹]|[A-Z]{3}` and `[\d,.]+` are modelled directly as
leftmost-match scanners; `\d` is modelled as an ASCII digit. -/

/-- Character class `[$€£¥₹]` of the currency pattern. -/
def isCurrencySymbol (c : Char) : Bool :=
  c = '$' || c = '€' || c = '£' || c = '¥' || c = '₹'

/-- Character class `[A-Z]`. -/
def isUpperAZ (c : Char) : Bool :=
  'A' ≤ c && c ≤ 'Z'

/-- Leftmost match of `[$€£¥₹]|[A-Z]{3}`: at each position a currency symbol
is tried, then a run of exactly three ASCII capitals. -/
def curSearch : List Char → Option (List Char)
  | [] => none
  | c :: rest =>
    if isCurrencySymbol c then some [c]
    else
      match rest with
      | b :: d :: _ =>
        if isUpperAZ c && isUpperAZ b && isUpperAZ d then some [c, b, d]
        else curSearch rest
      | _ => curSearch rest

/-- Character class `[\d,.]` of the amount pattern. -/
def isAmountChar (c : Char) : Bool :=
  c.isDigit || c = ',' || c = '.'

/-- Leftmost-longest match of `[\d,.]+`. -/
def amtSearch : List Char → Option (List Char)
  | [] => none
  | c :: rest =>
    if isAmountChar c then some (c :: rest.takeWhile isAmountChar)
    else amtSearch rest

/-- Embeds `extract_currency_amount` of src/scraper.py: falsy or "N/A" input
yields empty components; otherwise the two patterns are searched
independently, an absent match yielding the empty string. -/
def extract_currency_amount (price_text : String) : String × String :=
  if price_text = "" ∨ price_text = "N/A" then ("", "")
  else
    ((match curSearch price_text.toList with
      | some m => String.mk m
      | none => ""),
     (match amtSearch price_text.toList with
      | some m => String.mk m
      | none => ""))

/-! Site-profile auto-detection (src/scraper.py lines 128-145).  The page is
presented to the function through the Page Renderer Port as its rendered
content string and its current URL. -/

/-- Embeds `detect_site_type` of src/scraper.py: an ordered chain of
lowercased substring tests, three against the page content and three against
the URL, defaulting to "Generic". -/
def detect_site_type (page_content url : String) : String :=
  if strContains page_content.toLower "shopify" then "Shopify"
  else if strContains page_content.toLower "woocommerce" then "WooCommerce"
  else if strContains page_content.toLower "magento" then "Magento"
  else if strContains url.toLower "fashionnova" then "Fashion Nova"
  else if strContains url.toLower "asos" then "ASOS"
  else if strContains url.toLower "zara" then "Zara"
  else "Generic"

/-- Which half of the page signal a platform fingerprint inspects. -/
inductive SignalPart where
  | content
  | url
deriving Repr, DecidableEq

/-- The ordered fingerprint table of the detection function, read off the
spec's description: pattern substrings paired with the bundle name each one
selects, content fingerprints first, then URL fingerprints. -/
def fingerprintTable : List (SignalPart × String × String) :=
  [(SignalPart.content, "shopify", "Shopify"),
   (SignalPart.content, "woocommerce", "WooCommerce"),
   (SignalPart.content, "magento", "Magento"),
   (SignalPart.url, "fashionnova", "Fashion Nova"),
   (SignalPart.url, "asos", "ASOS"),
   (SignalPart.url, "zara", "Zara")]

/-- First-match scan of a fingerprint table against the lowercased page
signal, as the spec words it: return the first matching bundle, "Generic"
when none match. -/
def firstMatch (page_content url : String) :
    List (SignalPart × String × String) → String
  | [] => "Generic"
  | f :: rest =>
    if strContains
        (match f.1 with
          | SignalPart.content => page_content.toLower
          | SignalPart.url => url.toLower) f.2.1 then f.2.2
    else firstMatch page_content url rest

/-- Detection as the spec words it, to be compared with `detect_site_type`. -/
def detectBySpec (page_content url : String) : String :=
  firstMatch page_content url fingerprintTable

/-! Record deduplication (src/scraper3.py, `AdidasScraper._extract_products`,
lines 234-250), together with the HTML extraction strategy that feeds it
(`_extract_from_html`, lines 289-364). -/

/-- A product dict as built by the extraction strategies of scraper3.py. -/
structure AdidasProduct where
  name : String
  price : String
  url : String
  image_url : String
  product_id : String
deriving Repr, DecidableEq

/-- The identity key of the dedup loop: `identifier = url if url else name`. -/
def dedupKey (p : AdidasProduct) : String :=
  if p.url ≠ "" then p.url else p.name

/-- The dedup loop of `_extract_products` with the seen-set made explicit:
a draft is retained verbatim exactly when its identifier is truthy and not
yet seen. -/
def mergeGo : List AdidasProduct → List String → List AdidasProduct
  | [], _ => []
  | p :: ps, seen =>
    let ident := dedupKey p
    if ident ≠ "" ∧ ident ∉ seen then p :: mergeGo ps (ident :: seen)
    else mergeGo ps seen

/-- Embeds the deduplication pass of `AdidasScraper._extract_products`:
processes the concatenated strategy outputs in production order with an
initially empty seen-set. -/
def merge (products : List AdidasProduct) : List AdidasProduct :=
  mergeGo products []

/-- A product-card element of `_extract_from_html`, as handed over by the
BeautifulSoup layer: the text of the resolved name and price sub-elements
(`none` when the selector resolves to nothing), the first `<a>`'s href
attribute (`some none` for an `<a>` without href), and the first `<img>`'s
attribute list. -/
structure BsElem where
  nameText : Option String
  priceText : Option String
  linkHref : Option (Option String)
  imgAttrs : Option (List (String × String))
deriving Repr, DecidableEq

/-- Attribute lookup on a BeautifulSoup attribute list: `'k' in attrs`
presence plus value access. -/
def bsAttr (attrs : List (String × String)) (k : String) : Option String :=
  (attrs.find? (fun kv => kv.1 == k)).map Prod.snd

/-- Fixed-shape match of the pattern `https?://[^\s]+` at the head of the
list: optional-s alternative first, then at least one non-whitespace
character. -/
def httpMatchAt (l : List Char) : Option (List Char) :=
  let attempt (pre : List Char) : Option (List Char) :=
    if pre.isPrefixOf l then
      let run := (l.drop pre.length).takeWhile (fun c => !c.isWhitespace)
      if run.isEmpty then none else some (pre ++ run)
    else none
  match attempt "https://".toList with
  | some m => some m
  | none => attempt "http://".toList

/-- Leftmost match of `re.search(r'(https?://[^\s]+)', s)`. -/
def findHttpUrl : List Char → Option (List Char)
  | [] => none
  | l@(_ :: t) =>
    match httpMatchAt l with
    | some m => some m
    | none => findHttpUrl t

/-- Character class `[A-Z0-9]` of the product-id pattern. -/
def isIdChar (c : Char) : Bool :=
  ('A' ≤ c && c ≤ 'Z') || c.isDigit

/-- Fixed-shape match of `/([A-Z0-9]{6})\.html` at the head of the list,
returning the six captured characters. -/
def productIdAt (l : List Char) : Option (List Char) :=
  match l with
  | '/' :: a :: b :: c :: d :: e :: f :: rest =>
    if isIdChar a && isIdChar b && isIdChar c && isIdChar d &&
        isIdChar e && isIdChar f && ".html".toList.isPrefixOf rest then
      some [a, b, c, d, e, f]
    else none
  | _ => none

/-- Leftmost match of `re.search(r'/([A-Z0-9]{6})\.html', s)`, capture
group 1. -/
def findProductId : List Char → Option (List Char)
  | [] => none
  | l@(_ :: t) =>
    match productIdAt l with
    | some m => some m
    | none => findProductId t

/-- The final guard of `_extract_from_html` (src/scraper3.py line 356):
`if name or url:` — the draft is appended only when its name or URL is
non-empty. -/
def guardMinimal (p : AdidasProduct) : Option AdidasProduct :=
  if p.name ≠ "" ∨ p.url ≠ "" then some p else none

/-- Embeds the per-element body of `AdidasScraper._extract_from_html`
(src/scraper3.py lines 315-364).  `urljoin` is the external urllib
collaborator; `base` is `self.base_url`.  The element is appended only when
name or URL is non-empty (line 356). -/
def extract_from_html_elem (urljoin : String → String → String)
    (base : String) (e : BsElem) : Option AdidasProduct :=
  let name := pyStripStr (e.nameText.getD "")
  let price := pyStripStr (e.priceText.getD "")
  let url0 :=
    match e.linkHref with
    | some (some h) => h
    | _ => ""
  let url := if url0 ≠ "" ∧ ¬ url0.startsWith "http" then urljoin base url0 else url0
  let image0 :=
    match e.imgAttrs with
    | none => ""
    | some attrs =>
      match bsAttr attrs "src" with
      | some v => v
      | none =>
        match bsAttr attrs "data-src" with
        | some v => v
        | none =>
          match bsAttr attrs "srcset" with
          | some v =>
            match findHttpUrl v.toList with
            | some m => String.mk m
            | none => ""
          | none => ""
  let image_url := if image0 ≠ "" ∧ image0.startsWith "//" then "https:" ++ image0 else image0
  let product_id :=
    match findProductId url.toList with
    | some m => String.mk m
    | none => ""
  guardMinimal { name := name, price := price, url := url,
                 image_url := image_url, product_id := product_id }

/-! The DOM-selector extraction strategy of src/scraper.py
(`scrape_fashion_site`, per-item body at lines 275-345) and its pagination
loop (lines 221-361). -/

/-- A product record dict as built by the first `scrape_fashion_site`. -/
structure Draft where
  title : String
  price : String
  regularPrice : String
  salePrice : String
  currency : String
  amount : String
  imageUrl : String
  productUrl : String
  description : String
  colors : String
  sourceSite : String
deriving Repr, DecidableEq

/-- An item container as resolved by the Page Renderer Port: for each
sub-field selector, the inner text of the resolved element (`none` when the
selector resolves to no element); the image element is its attribute list;
the link element is its href attribute (`some none` for a link element
without href, on which the Python code raises inside the per-item handler). -/
structure DomItem where
  title : Option String
  price : Option String
  regularPrice : Option String
  salePrice : Option String
  image : Option (List (String × String))
  link : Option (Option String)
  description : Option String
deriving Repr, DecidableEq

/-- First URL token of a srcset value:
`src.split(",")[0].strip().split(" ")[0]`. -/
def srcsetFirst (s : String) : String :=
  let first := String.mk (s.toList.takeWhile (fun c => c ≠ ','))
  let stripped := pyStripStr first
  String.mk (stripped.toList.takeWhile (fun c => c ≠ ' '))

/-- The image-attribute loop of the DOM strategy: first truthy attribute in
the fixed priority order wins, a srcset attribute being reduced to its first
URL token; the loop falling through leaves the source empty. -/
def imgSrcLoop (attrs : List (String × String)) : List String → String
  | [] => ""
  | a :: rest =>
    match bsAttr attrs a with
    | some v =>
      if v ≠ "" then (if strContains a "srcset" then srcsetFirst v else v)
      else imgSrcLoop attrs rest
    | none => imgSrcLoop attrs rest

/-- Product-link resolution of the DOM strategy:
`urljoin(url, link_el.get_attribute("href")) if link_el else "N/A"`.  A link
element present but without href feeds `None` to `urljoin`, which raises, so
the per-item exception handler drops the whole item: that case is `none`. -/
def domProductUrl (urljoin : String → String → String) (url : String) :
    Option (Option String) → Option String
  | some (some h) => some (urljoin url h)
  | some none => none
  | none => some "N/A"

/-- Embeds the `product_data` dict of the first `scrape_fashion_site`
(src/scraper.py lines 275-345) for an already-resolved product URL. -/
def domDraft (urljoin : String → String → String) (url domain : String)
    (it : DomItem) (product_url : String) : Draft :=
  let title := clean_text (it.title.getD "N/A")
  let price_text := clean_text (it.price.getD "N/A")
  let regular_price := clean_text (it.regularPrice.getD price_text)
  let sale_price0 := clean_text (it.salePrice.getD "")
  let sale_price :=
    if sale_price0 = "" ∧ regular_price ≠ price_text then price_text
    else sale_price0
  let img_src :=
    match it.image with
    | none => ""
    | some attrs => imgSrcLoop attrs ["src", "data-src", "srcset", "data-srcset"]
  let img_url := if img_src ≠ "" then urljoin url img_src else "N/A"
  let description := clean_text (it.description.getD "N/A")
  let colors := extract_colors (title ++ " " ++ description)
  let price_details := extract_currency_amount price_text
  { title := title, price := price_text, regularPrice := regular_price,
    salePrice := sale_price, currency := price_details.1,
    amount := price_details.2, imageUrl := img_url,
    productUrl := product_url, description := description,
    colors := if colors ≠ [] then String.intercalate ", " colors else "N/A",
    sourceSite := domain }

/-- Embeds the per-item body of the first `scrape_fashion_site`
(src/scraper.py lines 275-345).  `urljoin` is the external urllib
collaborator, `url` the page URL argument of the function, `domain` the
`urlparse(url).netloc` value computed by the external urllib collaborator.
Returns `none` exactly when the per-item exception handler drops the item. -/
def extractItem (urljoin : String → String → String) (url domain : String)
    (it : DomItem) : Option Draft :=
  (domProductUrl urljoin url it.link).map (domDraft urljoin url domain it)

/-- One rendered listing page as exposed by the Page Renderer Port: the item
containers the item selector (with its fallbacks) resolves to, and the
next-page control — `none` when `bundle.next_page` resolves to no element,
`some none` for an element without href, `some (some h)` for href `h`. -/
structure PageModel where
  items : List DomItem
  nextHref : Option (Option String)

/-- Terminal status of a crawl session.  Modelled from the spec: the Python
loop returns its accumulator with no status value; the spec's Pagination
Driver reaches DONE with status OK, or NO_ITEMS_FOUND if zero drafts were
ever collected, and CAPTCHA_DETECTED on a robot-challenge abort. -/
inductive Status where
  | ok
  | noItemsFound
  | captchaDetected
deriving Repr, DecidableEq

/-- Session result: the accumulated records, the number of pages visited, and
the spec-modelled terminal status. -/
structure SessionResult where
  records : List Draft
  pageCount : Nat
  status : Status
deriving Repr, DecidableEq

/-- The `page_data` list of one loop iteration: every item container of the
page that the per-item body turns into a draft. -/
def pageDrafts (urljoin : String → String → String) (url domain : String)
    (pg : PageModel) : List Draft :=
  pg.items.filterMap (extractItem urljoin url domain)

/-- Embeds the `while True` pagination loop of the first
`scrape_fashion_site` (src/scraper.py lines 221-361): extract the current
page into the accumulator, then continue exactly when pagination is enabled,
the incremented page counter is still below `max_pages`, a next-page element
resolves and its href is truthy; the renderer is the map `site` from URL to
rendered page, and relative hrefs resolve through the external `urljoin`
against the original `url` argument. -/
def scrapeFrom (site : String → PageModel) (urljoin : String → String → String)
    (url domain : String) (pagination : Bool) (maxPages : Nat)
    (pagesScraped : Nat) (currentUrl : String) (allData : List Draft) :
    List Draft × Nat :=
  if hc : pagination = true ∧ pagesScraped + 1 < maxPages then
    match (site currentUrl).nextHref with
    | some (some h) =>
      if h ≠ "" then
        scrapeFrom site urljoin url domain pagination maxPages
          (pagesScraped + 1) (urljoin url h)
          (allData ++ pageDrafts urljoin url domain (site currentUrl))
      else (allData ++ pageDrafts urljoin url domain (site currentUrl),
            pagesScraped + 1)
    | some none =>
      (allData ++ pageDrafts urljoin url domain (site currentUrl),
       pagesScraped + 1)
    | none =>
      (allData ++ pageDrafts urljoin url domain (site currentUrl),
       pagesScraped + 1)
  else (allData ++ pageDrafts urljoin url domain (site currentUrl),
        pagesScraped + 1)
termination_by maxPages - pagesScraped
decreasing_by
  omega

/-- The crawl session over the pagination loop, with the spec-modelled
terminal status attached to the loop's single normal exit: OK, or
NO_ITEMS_FOUND when zero drafts were ever collected. -/
def scrape_fashion_site (site : String → PageModel)
    (urljoin : String → String → String) (url domain : String)
    (pagination : Bool) (maxPages : Nat) : SessionResult :=
  let r := scrapeFrom site urljoin url domain pagination maxPages 0 url []
  { records := r.1, pageCount := r.2,
    status := if r.1.isEmpty then Status.noItemsFound else Status.ok }

/-! The single-page ASOS/Zara session of src/scraper8.py
(`scrape_asos_data`) with its CAPTCHA abort. -/

/-- A record of the scraper8 session. -/
structure AsosItem where
  name : String
  category : String
  gender : String
  price : String
  image_url : String
  image_path : String
deriving Repr, DecidableEq

/-- A product object of an intercepted API response, after the nested
`.get` chains: `name`, the stringified `price.current.value`, and
`imageUrl`. -/
structure ApiProduct where
  name : Option String
  priceValue : Option String
  imageUrl : Option String
deriving Repr, DecidableEq

/-- Embeds the record built by the API response handler of
`scrape_asos_data` (src/scraper8.py lines 46-62). -/
def apiItem (p : ApiProduct) : AsosItem :=
  let name := p.name.getD "Unknown"
  { name := name,
    category := if strContains name.toLower "shirt" then "Shirts" else "Unknown",
    gender := "Men",
    price := p.priceValue.getD "0.0",
    image_url := "https:" ++ p.imageUrl.getD "",
    image_path := "" }

/-- A product tile element of the scraper8 DOM fallback: inner text of the
resolved name and price sub-elements, and the image element's data-src and
src attributes. -/
structure AsosDomEl where
  nameText : Option String
  priceText : Option String
  img : Option (Option String × Option String)
deriving Repr, DecidableEq

/-- Python `a or b` over optional attribute values: the left value when
truthy, the right one otherwise. -/
def orElsePy (a b : Option String) : Option String :=
  match a with
  | some s => if s ≠ "" then some s else b
  | none => b

/-- Embeds the per-tile body of the scraper8 DOM fallback (src/scraper8.py
lines 102-160).  `urljoin` is the external urllib collaborator resolving
against the constant base URL; `dl` is the external image downloader, whose
result string lands in `image_path` for a truthy image URL. -/
def asosDomItem (urljoin : String → String → String) (dl : String → String)
    (base : String) (e : AsosDomEl) : AsosItem :=
  let name := pyStripStr (e.nameText.getD "Unknown")
  let category :=
    if strContains name.toLower "pant" ∨ strContains name.toLower "trouser" then "Pants"
    else if strContains name.toLower "jacket" then "Jackets"
    else "Shirts"
  let price :=
    pyStripStr ((((e.priceText.getD "0.00").replace "Â£" "").replace "$" "").replace "," "")
  let image_url :=
    match e.img with
    | none => ""
    | some (d, s) =>
      match orElsePy d s with
      | some t => if t ≠ "" then urljoin base t else ""
      | none => ""
  { name := name, category := category, gender := "Men", price := price,
    image_url := image_url,
    image_path := if image_url ≠ "" then dl image_url else "" }

/-- The rendered state of the single page the scraper8 session visits:
whether the robot-challenge text selector resolves, the API products
intercepted by the response handler, and the product tiles in the DOM. -/
structure AsosPage where
  hasCaptcha : Bool
  apiProducts : List ApiProduct
  domEls : List AsosDomEl

/-- Result of the scraper8 session: the records it saves, the terminal
status, and whether a diagnostic screenshot was requested. -/
structure AsosResult where
  records : List AsosItem
  status : Status
  screenshotRequested : Bool
deriving Repr, DecidableEq

/-- The constant listing URL of src/scraper8.py. -/
def asos_base_url : String :=
  "https://www.zara.com/in/en/man-all-products-l7465.html?v1=2458839"

/-- Embeds the control flow of `scrape_asos_data` (src/scraper8.py): the API
handler fills `data` up to `max_items` during navigation; if the
robot-challenge selector resolves, a screenshot is requested and the raised
exception skips the whole remaining try body, the handler preserving `data`,
which the function then saves; otherwise the DOM fallback walks the tiles
truncated to the remaining budget, appending each tile unless a record of
the same name is already present. -/
def scrape_asos_data (urljoin : String → String → String)
    (dl : String → String) (maxItems : Nat) (pg : AsosPage) : AsosResult :=
  let data := (pg.apiProducts.take maxItems).map apiItem
  if pg.hasCaptcha then
    { records := data, status := Status.captchaDetected, screenshotRequested := true }
  else
    let els := pg.domEls.take (maxItems - data.length)
    let data2 := els.foldl
      (fun acc e =>
        let it := asosDomItem urljoin dl asos_base_url e
        if acc.any (fun d => d.name == it.name) then acc else acc ++ [it])
      data
    { records := data2, status := Status.ok, screenshotRequested := false }

/-! Concrete instances used by witnesses and counterexamples. -/

/-- A trivial urljoin instance: returns the href unchanged. -/
def ujId : String → String → String := fun _ s => s

/-- A trivial image-downloader instance. -/
def dlConst : String → String := fun _ => "images/x.jpg"

/-- Two drafts sharing the identity key "u" but disagreeing elsewhere. -/
def prodA : AdidasProduct :=
  { name := "A", price := "1", url := "u", image_url := "", product_id := "" }

/-- Second draft with the same key as `prodA`. -/
def prodB : AdidasProduct :=
  { name := "B", price := "2", url := "u", image_url := "", product_id := "" }

/-- A draft list with a duplicated key. -/
def dupList : List AdidasProduct := [prodA, prodB]

/-- A BeautifulSoup element carrying only a name. -/
def elemC3 : BsElem :=
  { nameText := some " Shoe ", priceText := none, linkHref := none,
    imgAttrs := none }

/-- The product `elemC3` extracts to. -/
def prodC3 : AdidasProduct :=
  { name := "Shoe", price := "", url := "", image_url := "", product_id := "" }

/-- An item container whose title selector resolves to no element. -/
def itemNoTitle : DomItem :=
  { title := none, price := some "10", regularPrice := none, salePrice := none,
    image := none, link := none, description := none }

/-- An item container with every sub-field selector unresolved. -/
def itemAllMissing : DomItem :=
  { title := none, price := none, regularPrice := none, salePrice := none,
    image := none, link := none, description := none }

/-- An item with a distinct regular price but no sale-price element. -/
def itemSaleMissing : DomItem :=
  { title := some "T", price := some "10", regularPrice := some "20",
    salePrice := none, image := none, link := none, description := none }

/-- An item with price only, regular and sale selectors unresolved. -/
def itemW10 : DomItem :=
  { title := some "T", price := some "10", regularPrice := none,
    salePrice := none, image := none, link := none, description := none }

/-- A renderer map whose every page exposes a next-page link forever. -/
def siteLoop : String → PageModel :=
  fun _ => { items := [], nextHref := some (some "next") }

/-- A renderer map with no items and no next-page control anywhere. -/
def siteEmptyNoNext : String → PageModel :=
  fun _ => { items := [], nextHref := none }

/-- A renderer map with one extractable item and no next-page control. -/
def siteOneNoNext : String → PageModel :=
  fun _ => { items := [itemW10], nextHref := none }

/-- An intercepted API product. -/
def apiP : ApiProduct :=
  { name := some "Linen Shirt", priceValue := some "49.0",
    imageUrl := some "//img.example/1.jpg" }

/-- A rendered page showing a robot challenge after one API interception. -/
def pgCaptcha : AsosPage :=
  { hasCaptcha := true, apiProducts := [apiP], domEls := [] }

/-! Lemmas about the dedup loop, all by induction with the seen-set
generalized. -/

/-- The dedup loop returns a sublist of its input: retained drafts are the
input drafts themselves, in input order. -/
theorem mergeGo_sublist (L : List AdidasProduct) :
    ∀ seen, (mergeGo L seen).Sublist L := by
  induction L with
  | nil => intro seen; simp [mergeGo]
  | cons p ps ih =>
    intro seen
    simp only [mergeGo]
    split
    · exact (ih _).cons₂ p
    · exact (ih _).cons p

/-- Every draft retained by the dedup loop has a truthy identifier not in the
incoming seen-set and is the first input draft carrying its identifier. -/
theorem mem_mergeGo (L : List AdidasProduct) :
    ∀ seen r, r ∈ mergeGo L seen →
      dedupKey r ≠ "" ∧ dedupKey r ∉ seen ∧
      L.find? (fun p => dedupKey p == dedupKey r) = some r := by
  induction L with
  | nil => intro seen r hr; simp [mergeGo] at hr
  | cons p ps ih =>
    intro seen r hr
    simp only [mergeGo] at hr
    by_cases hc : dedupKey p ≠ "" ∧ dedupKey p ∉ seen
    · rw [if_pos hc] at hr
      rcases List.mem_cons.mp hr with rfl | hr2
      · exact ⟨hc.1, hc.2, by simp [List.find?_cons_of_pos]⟩
      · obtain ⟨h1, h2, h3⟩ := ih _ r hr2
        have hne : dedupKey p ≠ dedupKey r := by
          intro he; exact h2 (by simp [he])
        refine ⟨h1, fun hmem => h2 (by simp [hmem]), ?_⟩
        rw [List.find?_cons_of_neg _ (by simp [hne]), h3]
    · rw [if_neg hc] at hr
      obtain ⟨h1, h2, h3⟩ := ih _ r hr
      push_neg at hc
      have hne : dedupKey p ≠ dedupKey r := by
        intro he
        by_cases hp : dedupKey p = ""
        · exact h1 (he ▸ hp)
        · exact h2 (he ▸ hc hp)
      refine ⟨h1, h2, ?_⟩
      rw [List.find?_cons_of_neg _ (by simp [hne]), h3]

/-- Every input draft with a truthy unseen identifier is represented in the
output of the dedup loop by a retained draft with the same identifier. -/
theorem mergeGo_covers (L : List AdidasProduct) :
    ∀ seen d, d ∈ L → dedupKey d ≠ "" → dedupKey d ∉ seen →
      ∃ r ∈ mergeGo L seen, dedupKey r = dedupKey d := by
  induction L with
  | nil => intro seen d hd; simp at hd
  | cons p ps ih =>
    intro seen d hd hkd hsd
    simp only [mergeGo]
    by_cases hc : dedupKey p ≠ "" ∧ dedupKey p ∉ seen
    · rw [if_pos hc]
      by_cases hk : dedupKey p = dedupKey d
      · exact ⟨p, List.mem_cons_self _ _, hk⟩
      · rcases List.mem_cons.mp hd with rfl | hd2
        · exact absurd rfl hk
        · have hnot : dedupKey d ∉ dedupKey p :: seen := by
            simp only [List.mem_cons, not_or]
            exact ⟨fun h => hk h.symm, hsd⟩
          obtain ⟨r, hr, hkey⟩ := ih _ d hd2 hkd hnot
          exact ⟨r, List.mem_cons_of_mem _ hr, hkey⟩
    · rw [if_neg hc]
      push_neg at hc
      rcases List.mem_cons.mp hd with rfl | hd2
      · by_cases hp : dedupKey d = ""
        · exact absurd hp hkd
        · exact absurd (hc hp) hsd
      · exact ih _ d hd2 hkd hsd

/-- No two drafts retained by the dedup loop share an identifier. -/
theorem mergeGo_pairwise (L : List AdidasProduct) :
    ∀ seen, (mergeGo L seen).Pairwise (fun a b => dedupKey a ≠ dedupKey b) := by
  induction L with
  | nil => intro seen; simp [mergeGo]
  | cons p ps ih =>
    intro seen
    simp only [mergeGo]
    split
    · refine List.Pairwise.cons ?_ (ih _)
      intro b hb
      have h2 := (mem_mergeGo ps _ b hb).2.1
      intro he; exact h2 (by simp [he])
    · exact ih _

/-- Dropping the drafts with a falsy identifier does not change the output of
the dedup loop: they are never retained and never enter the seen-set. -/
theorem mergeGo_filter_truthy (L : List AdidasProduct) :
    ∀ seen, mergeGo (L.filter (fun d => dedupKey d != "")) seen = mergeGo L seen := by
  induction L with
  | nil => intro seen; simp
  | cons p ps ih =>
    intro seen
    by_cases hp : dedupKey p = ""
    · rw [List.filter_cons_of_neg (by simp [hp])]
      have : ¬(dedupKey p ≠ "" ∧ dedupKey p ∉ seen) := fun h => h.1 hp
      simp only [mergeGo, if_neg this]
      exact ih seen
    · rw [List.filter_cons_of_pos (by simp [hp])]
      simp only [mergeGo]
      by_cases hs : dedupKey p ∉ seen
      · rw [if_pos ⟨hp, hs⟩, if_pos ⟨hp, hs⟩, ih]
      · rw [if_neg (fun h => hs h.2), if_neg (fun h => hs h.2), ih]

/-- A list of drafts with pairwise distinct truthy identifiers, none seen
yet, passes through the dedup loop unchanged. -/
theorem mergeGo_fixed (M : List AdidasProduct) :
    ∀ seen, (∀ r ∈ M, dedupKey r ≠ "" ∧ dedupKey r ∉ seen) →
      M.Pairwise (fun a b => dedupKey a ≠ dedupKey b) →
      mergeGo M seen = M := by
  induction M with
  | nil => intro seen _ _; rfl
  | cons m M ih =>
    intro seen hall hpw
    have hm := hall m (List.mem_cons_self _ _)
    simp only [mergeGo, if_pos hm]
    congr 1
    apply ih
    · intro r hr
      refine ⟨(hall r (List.mem_cons_of_mem _ hr)).1, ?_⟩
      simp only [List.mem_cons, not_or]
      exact ⟨fun he => (List.pairwise_cons.mp hpw).1 r hr he.symm,
        (hall r (List.mem_cons_of_mem _ hr)).2⟩
    · exact (List.pairwise_cons.mp hpw).2

/-- C1: record deduplication is first-seen-wins over the identity key (the
product URL when non-empty, else the name): `merge` retains, verbatim and in
production order, exactly the first draft for each truthy key — every
retained record is the first input draft carrying its key, every truthy key
occurring in the input is represented, and no key is retained twice, so
every later draft with an already-seen key is dropped with none of its
fields merged in. -/
theorem merge_first_seen_wins (L : List AdidasProduct) :
    (merge L).Sublist L ∧
    (∀ r ∈ merge L, dedupKey r ≠ "" ∧
      L.find? (fun p => dedupKey p == dedupKey r) = some r) ∧
    (∀ d ∈ L, dedupKey d ≠ "" → ∃ r ∈ merge L, dedupKey r = dedupKey d) ∧
    (merge L).Pairwise (fun a b => dedupKey a ≠ dedupKey b) := by
  refine ⟨mergeGo_sublist L [], ?_, ?_, mergeGo_pairwise L []⟩
  · intro r hr
    obtain ⟨h1, _, h3⟩ := mem_mergeGo L [] r hr
    exact ⟨h1, h3⟩
  · intro d hd hkd
    exact mergeGo_covers L [] d hd hkd (by simp)

/-- Witness for C1 at a concrete duplicated pair: the second draft with key
"u" is dropped and the first is retained verbatim. -/
theorem merge_first_seen_wins_witness :
    prodB ∈ dupList ∧ dedupKey prodB ≠ "" ∧
    (∃ r ∈ merge dupList, dedupKey r = dedupKey prodB) ∧
    merge dupList = [prodA] :=
  ⟨by decide, by decide,
    (merge_first_seen_wins dupList).2.2.1 prodB (by decide) (by decide),
    by decide⟩

/-- C7: deduplication is idempotent — `merge` applied to its own output
returns that output unchanged, records, fields and order alike. -/
theorem merge_idempotent (L : List AdidasProduct) :
    merge (merge L) = merge L := by
  apply mergeGo_fixed
  · intro r hr
    exact ⟨(mem_mergeGo L [] r hr).1, by simp⟩
  · exact mergeGo_pairwise L []

/-- The minimal-field guard only lets through drafts with a non-empty name
or URL, unchanged. -/
theorem guardMinimal_some {q p : AdidasProduct} (h : guardMinimal q = some p) :
    p = q ∧ (p.name ≠ "" ∨ p.url ≠ "") := by
  unfold guardMinimal at h
  split at h
  · rename_i hc
    cases h
    exact ⟨rfl, hc⟩
  · exact absurd h (by simp)

/-- C3: the minimal-field invariant — every record retained by `merge` has a
non-empty name or a non-empty product URL; drafts with both empty (falsy
identifier) can be removed from the input without changing the output at
all, so they are not counted as duplicates of any other draft; and the HTML
extraction strategy only ever emits a draft when its name or URL is
non-empty. -/
theorem merge_minimal_field_invariant (L : List AdidasProduct) :
    (∀ r ∈ merge L, r.name ≠ "" ∨ r.url ≠ "") ∧
    merge (L.filter (fun d => dedupKey d != "")) = merge L ∧
    (∀ (urljoin : String → String → String) (base : String) (e : BsElem)
      (p : AdidasProduct), extract_from_html_elem urljoin base e = some p →
      p.name ≠ "" ∨ p.url ≠ "") := by
  refine ⟨?_, mergeGo_filter_truthy L [], ?_⟩
  · intro r hr
    have h1 := (mem_mergeGo L [] r hr).1
    by_cases hu : r.url = ""
    · left; simpa [dedupKey, hu] using h1
    · right; exact hu
  · intro urljoin base e p hp
    exact (guardMinimal_some hp).2

/-- Witness for C3: a concrete element with only a name extracts to a draft,
and that draft satisfies the invariant; applied through the main theorem. -/
theorem merge_minimal_field_invariant_witness :
    prodC3.name ≠ "" ∨ prodC3.url ≠ "" :=
  (merge_minimal_field_invariant []).2.2 ujId "b" elemC3 prodC3 (by decide)

/-- C2: profile auto-detection is the pure, deterministic, order-sensitive
first-match scan over the fixed fingerprint table — lowercased substring
tests of "shopify"/"woocommerce"/"magento" against the page content and
"fashionnova"/"asos"/"zara" against the URL, in that order — returning
"Generic" when none match; being a total function of the (content, URL)
pair, it never fails and evaluates identically on identical pairs. -/
theorem detect_site_type_first_match (page_content url : String) :
    detect_site_type page_content url = detectBySpec page_content url := by
  simp only [detectBySpec, fingerprintTable, firstMatch, detect_site_type]

/-! Lemmas about the two price patterns: a successful search never returns
an empty match. -/

/-- A currency-pattern match is non-empty. -/
theorem curSearch_some_ne_nil (l : List Char) :
    ∀ m, curSearch l = some m → m ≠ [] := by
  induction l with
  | nil => intro m h; simp [curSearch] at h
  | cons c rest ih =>
    intro m h
    simp only [curSearch] at h
    split at h
    · cases h; simp
    · split at h
      · split at h
        · cases h; simp
        · exact ih m h
      · exact ih m h

/-- An amount-pattern match is non-empty. -/
theorem amtSearch_some_ne_nil (l : List Char) :
    ∀ m, amtSearch l = some m → m ≠ [] := by
  induction l with
  | nil => intro m h; simp [amtSearch] at h
  | cons c rest ih =>
    intro m h
    simp only [amtSearch] at h
    split at h
    · cases h; simp
    · exact ih m h

/-- A character-list string is empty exactly when the list is. -/
theorem stringMk_eq_empty_iff (m : List Char) : String.mk m = "" ↔ m = [] :=
  ⟨fun h => congrArg String.data h, fun h => by rw [h]⟩

/-- C9: currency and amount extraction are independent and total — the
currency component is empty exactly when the input is falsy, "N/A", or the
symbol/ISO-code pattern finds no match, the amount component is empty
exactly when the input is falsy, "N/A", or the numeric pattern finds no
match (so absence of either never raises and yields the empty string for
just that component), and on "£1,234.50" the extraction returns currency
"£" and amount "1,234.50". -/
theorem extract_currency_amount_spec :
    extract_currency_amount "£1,234.50" = ("£", "1,234.50") ∧
    (∀ s, (extract_currency_amount s).1 = "" ↔
      s = "" ∨ s = "N/A" ∨ curSearch s.toList = none) ∧
    (∀ s, (extract_currency_amount s).2 = "" ↔
      s = "" ∨ s = "N/A" ∨ amtSearch s.toList = none) := by
  refine ⟨by decide, ?_, ?_⟩
  · intro s
    by_cases hs : s = "" ∨ s = "N/A"
    · rcases hs with h | h <;> subst h <;> decide
    · have hcond := hs
      unfold extract_currency_amount
      rw [if_neg hcond]
      push_neg at hs
      cases hcs : curSearch s.toList with
      | none => simp [hs.1, hs.2]
      | some m =>
        have hm := curSearch_some_ne_nil s.toList m hcs
        simp [hs.1, hs.2, stringMk_eq_empty_iff, hm]
  · intro s
    by_cases hs : s = "" ∨ s = "N/A"
    · rcases hs with h | h <;> subst h <;> decide
    · have hcond := hs
      unfold extract_currency_amount
      rw [if_neg hcond]
      push_neg at hs
      cases has : amtSearch s.toList with
      | none => simp [hs.1, hs.2]
      | some m =>
        have hm := amtSearch_some_ne_nil s.toList m has
        simp [hs.1, hs.2, stringMk_eq_empty_iff, hm]

/-! Field-level reading of the DOM-strategy draft builder. -/

/-- Title field of a DOM draft. -/
theorem domDraft_title (uj : String → String → String) (url domain : String)
    (it : DomItem) (pu : String) :
    (domDraft uj url domain it pu).title = clean_text (it.title.getD "N/A") := rfl

/-- Price field of a DOM draft. -/
theorem domDraft_price (uj : String → String → String) (url domain : String)
    (it : DomItem) (pu : String) :
    (domDraft uj url domain it pu).price = clean_text (it.price.getD "N/A") := rfl

/-- Regular-price field of a DOM draft: the cleaned text of the
regular-price element, falling back to the already-cleaned main price
text. -/
theorem domDraft_regular (uj : String → String → String) (url domain : String)
    (it : DomItem) (pu : String) :
    (domDraft uj url domain it pu).regularPrice
      = clean_text (it.regularPrice.getD (clean_text (it.price.getD "N/A"))) := rfl

/-- Sale-price field of a DOM draft: the cleaned sale-element text, replaced
by the main price text exactly when that cleaned text is empty and the
regular price differs from the main price text. -/
theorem domDraft_sale (uj : String → String → String) (url domain : String)
    (it : DomItem) (pu : String) :
    (domDraft uj url domain it pu).salePrice
      = (if clean_text (it.salePrice.getD "") = "" ∧
            clean_text (it.regularPrice.getD (clean_text (it.price.getD "N/A")))
              ≠ clean_text (it.price.getD "N/A")
         then clean_text (it.price.getD "N/A")
         else clean_text (it.salePrice.getD "")) := rfl

/-- Description field of a DOM draft. -/
theorem domDraft_description (uj : String → String → String)
    (url domain : String) (it : DomItem) (pu : String) :
    (domDraft uj url domain it pu).description
      = clean_text (it.description.getD "N/A") := rfl

/-- Product-URL field of a DOM draft. -/
theorem domDraft_productUrl (uj : String → String → String)
    (url domain : String) (it : DomItem) (pu : String) :
    (domDraft uj url domain it pu).productUrl = pu := rfl

/-- Image-URL field of a DOM draft: the resolved image source passed to
urljoin when truthy, else "N/A". -/
theorem domDraft_imageUrl (uj : String → String → String)
    (url domain : String) (it : DomItem) (pu : String) :
    (domDraft uj url domain it pu).imageUrl
      = (if (match it.image with
              | none => ""
              | some attrs => imgSrcLoop attrs ["src", "data-src", "srcset", "data-srcset"]) ≠ ""
         then uj url (match it.image with
              | none => ""
              | some attrs => imgSrcLoop attrs ["src", "data-src", "srcset", "data-srcset"])
         else "N/A") := rfl

/-- Image-URL field of a DOM draft when the image selector resolves to no
element. -/
theorem domDraft_image_none (uj : String → String → String)
    (url domain : String) (it : DomItem) (pu : String) (h : it.image = none) :
    (domDraft uj url domain it pu).imageUrl = "N/A" := by
  rw [domDraft_imageUrl, h]
  simp

/-- Cleaning the empty string yields "N/A", not the empty string. -/
theorem clean_text_empty : clean_text "" = "N/A" := by decide

/-- Cleaning "N/A" leaves it unchanged. -/
theorem clean_text_NA : clean_text "N/A" = "N/A" := by decide

/-- Counterexample to C8 as stated: an item whose title selector resolves to
no element is retained with title "N/A", not the empty string. -/
theorem dom_missing_title_yields_NA :
    (extractItem ujId "u" "dm" itemNoTitle).map Draft.title ≠ some "" ∧
    (extractItem ujId "u" "dm" itemNoTitle).map Draft.title = some "N/A" := by
  decide

/-- C8 (amended): per-field recoverability — whenever the item is produced
at all (the link element, when present, carries an href; otherwise the item
handler drops it), each sub-field selector resolving to no element yields
the fallback "N/A" for that field (for the regular price, the cleaned main
price text) rather than discarding the item. -/
theorem dom_missing_field_recoverable (uj : String → String → String)
    (url domain : String) (it : DomItem) (hlink : it.link ≠ some none) :
    ∃ d, extractItem uj url domain it = some d ∧
      (it.title = none → d.title = "N/A") ∧
      (it.price = none → d.price = "N/A") ∧
      (it.regularPrice = none → d.regularPrice = clean_text d.price) ∧
      (it.salePrice = none → d.salePrice = "N/A") ∧
      (it.image = none → d.imageUrl = "N/A") ∧
      (it.link = none → d.productUrl = "N/A") ∧
      (it.description = none → d.description = "N/A") := by
  cases hl : it.link with
  | some v =>
    cases v with
    | none => exact absurd hl hlink
    | some hh =>
      refine ⟨domDraft uj url domain it (uj url hh), ?_, ?_, ?_, ?_, ?_, ?_, ?_, ?_⟩
      · unfold extractItem
        rw [hl]
        rfl
      · intro h; rw [domDraft_title, h]; exact clean_text_NA
      · intro h; rw [domDraft_price, h]; exact clean_text_NA
      · intro h; rw [domDraft_regular, h]; rfl
      · intro h; rw [domDraft_sale, h]; simp [clean_text_empty]
      · intro h; exact domDraft_image_none uj url domain it _ h
      · intro h; exact absurd h (by simp)
      · intro h; rw [domDraft_description, h]; exact clean_text_NA
  | none =>
    refine ⟨domDraft uj url domain it "N/A", ?_, ?_, ?_, ?_, ?_, ?_, ?_, ?_⟩
    · unfold extractItem
      rw [hl]
      rfl
    · intro h; rw [domDraft_title, h]; exact clean_text_NA
    · intro h; rw [domDraft_price, h]; exact clean_text_NA
    · intro h; rw [domDraft_regular, h]; rfl
    · intro h; rw [domDraft_sale, h]; simp [clean_text_empty]
    · intro h; exact domDraft_image_none uj url domain it _ h
    · intro h; exact domDraft_productUrl uj url domain it _
    · intro h; rw [domDraft_description, h]; exact clean_text_NA

/-- Witness for C8 (amended) at an item with every selector unresolved. -/
theorem dom_missing_field_recoverable_witness :
    itemAllMissing.link ≠ some none ∧
    ∃ d, extractItem ujId "u" "dm" itemAllMissing = some d ∧
      (itemAllMissing.title = none → d.title = "N/A") ∧
      (itemAllMissing.price = none → d.price = "N/A") ∧
      (itemAllMissing.regularPrice = none → d.regularPrice = clean_text d.price) ∧
      (itemAllMissing.salePrice = none → d.salePrice = "N/A") ∧
      (itemAllMissing.image = none → d.imageUrl = "N/A") ∧
      (itemAllMissing.link = none → d.productUrl = "N/A") ∧
      (itemAllMissing.description = none → d.description = "N/A") :=
  ⟨by decide, dom_missing_field_recoverable ujId "u" "dm" itemAllMissing (by decide)⟩

/-- Counterexample to C10 as stated: on an item with a distinct regular
price but no sale-price element, the code sets the sale price to "N/A",
not to the main price text as the claim requires. -/
theorem sale_inference_counterexample :
    (extractItem ujId "u" "dm" itemSaleMissing).map Draft.regularPrice = some "20" ∧
    (extractItem ujId "u" "dm" itemSaleMissing).map Draft.price = some "10" ∧
    (extractItem ujId "u" "dm" itemSaleMissing).map Draft.salePrice = some "N/A" ∧
    (extractItem ujId "u" "dm" itemSaleMissing).map Draft.salePrice ≠ some "10" := by
  decide

/-- C10 (amended): when the regular-price selector resolves to nothing the
regular price is the cleaned main price text; when the sale-price selector
resolves to nothing the sale price is "N/A" (never the main price text,
because cleaning the empty fallback yields the truthy "N/A"); the
sale-price inference — sale price set to the main price text exactly when
the regular price differs from it — applies only when a sale-price element
is found whose text cleans to the empty string; a found sale-price element
with non-empty cleaned text is kept as-is. -/
theorem sale_price_inference (uj : String → String → String)
    (url domain : String) (it : DomItem) (d : Draft)
    (h : extractItem uj url domain it = some d) :
    (it.regularPrice = none → d.regularPrice = clean_text d.price) ∧
    (it.salePrice = none → d.salePrice = "N/A") ∧
    (∀ s, it.salePrice = some s → clean_text s = "" →
      d.salePrice = (if d.regularPrice ≠ d.price then d.price else "")) ∧
    (∀ s, it.salePrice = some s → clean_text s ≠ "" →
      d.salePrice = clean_text s) := by
  have main : ∀ pu, d = domDraft uj url domain it pu →
      (it.regularPrice = none → d.regularPrice = clean_text d.price) ∧
      (it.salePrice = none → d.salePrice = "N/A") ∧
      (∀ s, it.salePrice = some s → clean_text s = "" →
        d.salePrice = (if d.regularPrice ≠ d.price then d.price else "")) ∧
      (∀ s, it.salePrice = some s → clean_text s ≠ "" →
        d.salePrice = clean_text s) := by
    intro pu hd
    subst hd
    refine ⟨?_, ?_, ?_, ?_⟩
    · intro hr; rw [domDraft_regular, hr]; rfl
    · intro hs; rw [domDraft_sale, hs]; simp [clean_text_empty]
    · intro s hs hcs
      rw [domDraft_sale, domDraft_regular, domDraft_price, hs]
      simp only [Option.getD_some, hcs, true_and]
    · intro s hs hcs
      rw [domDraft_sale, hs]
      simp only [Option.getD_some]
      rw [if_neg (fun hc => hcs hc.1)]
  unfold extractItem at h
  cases hl : it.link with
  | some v =>
    cases v with
    | none => rw [hl] at h; exact absurd h (by simp [domProductUrl])
    | some hh =>
      rw [hl] at h
      simp only [domProductUrl, Option.map_some', Option.some.injEq] at h
      exact main (uj url hh) h.symm
  | none =>
    rw [hl] at h
    simp only [domProductUrl, Option.map_some', Option.some.injEq] at h
    exact main "N/A" h.symm

/-- Witness for C10 (amended) at an item with price only: the regular price
equals the cleaned main price text and the sale price is "N/A". -/
theorem sale_price_inference_witness :
    (domDraft ujId "u" "dm" itemW10 "N/A").salePrice = "N/A" ∧
    (domDraft ujId "u" "dm" itemW10 "N/A").regularPrice
      = clean_text (domDraft ujId "u" "dm" itemW10 "N/A").price :=
  ⟨(sale_price_inference ujId "u" "dm" itemW10 _ rfl).2.1 rfl,
   (sale_price_inference ujId "u" "dm" itemW10 _ rfl).1 rfl⟩

/-! Pagination loop bounds. -/

/-- The loop started at a page counter strictly below the budget never
reports more visited pages than the budget allows. -/
theorem scrapeFrom_pages_le (site : String → PageModel)
    (uj : String → String → String) (url domain : String) (pag : Bool)
    (maxPages : Nat) :
    ∀ n k curl acc, maxPages - k ≤ n → k < maxPages →
      (scrapeFrom site uj url domain pag maxPages k curl acc).2 ≤ maxPages := by
  intro n
  induction n with
  | zero =>
    intro k curl acc hk hlt
    omega
  | succ n ih =>
    intro k curl acc hk hlt
    rw [scrapeFrom]
    split
    · rename_i hc
      obtain ⟨-, hc2⟩ := hc
      split
      · split
        · exact ih (k + 1) _ _ (by omega) hc2
        · show k + 1 ≤ maxPages
          omega
      · show k + 1 ≤ maxPages
        omega
      · show k + 1 ≤ maxPages
        omega
    · show k + 1 ≤ maxPages
      omega


/-- C4: budget respect — for every max-pages budget N ≥ 1, the pagination
driver visits and extracts at most N pages in one session, whatever
next-page links the rendered pages expose; the reported page count never
exceeds N. -/
theorem pagination_budget_respected (site : String → PageModel)
    (uj : String → String → String) (url domain : String) (pag : Bool)
    (N : Nat) (hN : 1 ≤ N) :
    (scrape_fashion_site site uj url domain pag N).pageCount ≤ N := by
  unfold scrape_fashion_site
  exact scrapeFrom_pages_le site uj url domain pag N N 0 url [] (by omega) (by omega)

/-- Witness for C4 on a renderer that always offers a next page: with a
budget of 2 the driver still reports at most 2 pages. -/
theorem pagination_budget_respected_witness :
    1 ≤ 2 ∧ (scrape_fashion_site siteLoop ujId "u" "dm" true 2).pageCount ≤ 2 :=
  ⟨by decide, pagination_budget_respected siteLoop ujId "u" "dm" true 2 (by decide)⟩

/-- Counterexample to C5 as stated: under the spec's own terminal-status
rule (NO_ITEMS_FOUND when zero drafts were ever collected) a single page
with no items and no next-page control terminates after one page but not
with status OK. -/
theorem no_next_empty_page_status :
    (scrape_fashion_site siteEmptyNoNext ujId "u" "dm" false 3).pageCount = 1 ∧
    (scrape_fashion_site siteEmptyNoNext ujId "u" "dm" false 3).status ≠ Status.ok ∧
    (scrape_fashion_site siteEmptyNoNext ujId "u" "dm" false 3).status
      = Status.noItemsFound := by
  have hrun : scrapeFrom siteEmptyNoNext ujId "u" "dm" false 3 0 "u" [] = ([], 1) := by
    rw [scrapeFrom]
    rw [dif_neg (by simp)]
    rfl
  unfold scrape_fashion_site
  rw [hrun]
  exact ⟨rfl, by decide, rfl⟩

/-- C5 (amended): pagination terminates without a next-page control — when
the `next_page` selector never resolves to an element (or only to elements
with an empty link), the loop terminates after processing exactly one page,
returns precisely the records extracted from that single page, and the
terminal status is OK whenever that page yielded at least one record
(NO_ITEMS_FOUND when it yielded none). -/
theorem single_page_when_no_next (site : String → PageModel)
    (uj : String → String → String) (url domain : String) (pag : Bool)
    (N : Nat)
    (hnx : ∀ cu h, (site cu).nextHref = some (some h) → h = "") :
    (scrape_fashion_site site uj url domain pag N).pageCount = 1 ∧
    (scrape_fashion_site site uj url domain pag N).records
      = pageDrafts uj url domain (site url) ∧
    (pageDrafts uj url domain (site url) ≠ [] →
      (scrape_fashion_site site uj url domain pag N).status = Status.ok) ∧
    (pageDrafts uj url domain (site url) = [] →
      (scrape_fashion_site site uj url domain pag N).status
        = Status.noItemsFound) := by
  have hrun : scrapeFrom site uj url domain pag N 0 url []
      = ([] ++ pageDrafts uj url domain (site url), 1) := by
    rw [scrapeFrom]
    split
    · cases hnh : (site url).nextHref with
      | none => rfl
      | some v =>
        cases v with
        | none => rfl
        | some h =>
          have hh0 := hnx url h hnh
          subst hh0
          rfl
    · rfl
  unfold scrape_fashion_site
  rw [hrun]
  refine ⟨rfl, by simp, ?_, ?_⟩
  · intro hne
    simp only [List.nil_append]
    rw [if_neg (by simpa [List.isEmpty_iff] using hne)]
  · intro he
    simp only [List.nil_append]
    rw [if_pos (by simpa [List.isEmpty_iff] using he)]

/-- Witness for C5 (amended) on a one-item page with no next-page control. -/
theorem single_page_when_no_next_witness :
    (scrape_fashion_site siteOneNoNext ujId "u" "dm" true 5).pageCount = 1 ∧
    (scrape_fashion_site siteOneNoNext ujId "u" "dm" true 5).records
      = pageDrafts ujId "u" "dm" (siteOneNoNext "u") ∧
    (pageDrafts ujId "u" "dm" (siteOneNoNext "u") ≠ [] →
      (scrape_fashion_site siteOneNoNext ujId "u" "dm" true 5).status = Status.ok) ∧
    (pageDrafts ujId "u" "dm" (siteOneNoNext "u") = [] →
      (scrape_fashion_site siteOneNoNext ujId "u" "dm" true 5).status
        = Status.noItemsFound) :=
  single_page_when_no_next siteOneNoNext ujId "u" "dm" true 5
    (fun _ _ hh => Option.noConfusion hh)

/-- C6: CAPTCHA is session-fatal but non-destructive — whenever the
robot-challenge selector resolves on the rendered page, the session result
carries status CAPTCHA_DETECTED, a diagnostic screenshot is requested, and
the records are exactly those accumulated before the check (the intercepted
API records), so no further extraction occurs and nothing already collected
is lost. -/
theorem captcha_aborts_preserving_records (uj : String → String → String)
    (dl : String → String) (maxItems : Nat) (pg : AsosPage)
    (hc : pg.hasCaptcha = true) :
    scrape_asos_data uj dl maxItems pg =
      { records := (pg.apiProducts.take maxItems).map apiItem,
        status := Status.captchaDetected, screenshotRequested := true } := by
  unfold scrape_asos_data
  rw [if_pos hc]

/-- Witness for C6 at a concrete captcha page with one intercepted API
record. -/
theorem captcha_aborts_preserving_records_witness :
    pgCaptcha.hasCaptcha = true ∧
    scrape_asos_data ujId dlConst 10 pgCaptcha =
      { records := (pgCaptcha.apiProducts.take 10).map apiItem,
        status := Status.captchaDetected, screenshotRequested := true } :=
  ⟨rfl, captcha_aborts_preserving_records ujId dlConst 10 pgCaptcha rfl⟩

end Scraper
